import Mathlib

/-!
Verification development for the KameMix audio mixer
(`src/KameMix.cpp`, `include/KameMix/KameMix.h`).

Modelling conventions, stated once:

* C `float` / `double` values are modelled as `ℚ` (exact rational
  arithmetic in place of IEEE rounding); the float literals `0.02f`,
  `0.01f`, `1.0f` become `2/100`, `1/100`, `1`.
* C `int` is modelled as `ℤ` and `unsigned` as `ℕ`; no arithmetic in the
  modelled paths relies on wraparound (signed overflow is UB in the
  source), so no `% 2^32` reduction is applied.
* The global `kame_mix` singleton becomes the explicit state record
  `MixState`; `std::vector` members become `List`s; `push_back` is
  append, `back`/`pop_back` read and drop the last element.
* `PlayingSound::getVolumeData` calls `applyPosition`, which evaluates
  `sqrt` and `atan` on floats.  Its result is passed in here as an
  explicit `VolumeFade` argument; the branch the concrete instances use
  is the exact one of the source (`applyPosition` returns `{1.0f, 1.0f}`
  when the relative position is `(0, 0)`, which is what
  `getRelativePos` yields whenever `max_distance <= 0`).
-/

/-- `enum PlayingType` of `KameMix.cpp`. -/
inductive PlayingType where
  | SoundType
  | StreamType
  | InvalidType
  deriving DecidableEq, Repr

/-- `enum PlayState` of `KameMix.cpp`. -/
inductive PlayState where
  | PlayingState
  | FinishedState
  | PausedState
  | PausingState
  | UnpausingState
  deriving DecidableEq, Repr

open PlayingType PlayState

/-- `struct VolumeData` of `KameMix.cpp`.  `mod_times` is an `int` in the
source but is always assigned a value in `[0, 50]`, so it is carried as
`ℕ` here. -/
structure VolumeData where
  left_volume : ℚ
  right_volume : ℚ
  lfade : ℚ
  rfade : ℚ
  lmod : ℚ
  rmod : ℚ
  mod_times : ℕ
  deriving DecidableEq, Repr

/-- `struct VolumeFade` of `KameMix.cpp`. -/
structure VolumeFade where
  left_fade : ℚ
  right_fade : ℚ
  deriving DecidableEq, Repr

/-- `struct PlayingSound` of `KameMix.cpp`.  The `sound_`/`stream_`
pointer union is represented by its discriminant `tag` alone; the
refcount traffic of `release`/the constructors is outside the model. -/
structure PlayingSound where
  buffer_pos : ℤ
  loop_count : ℤ
  group : ℤ
  id : ℕ
  fade_total : ℚ
  fade_time : ℚ
  new_volume : ℚ
  lvolume : ℚ
  rvolume : ℚ
  x : ℚ
  y : ℚ
  max_distance : ℚ
  tag : PlayingType
  state : PlayState
  deriving DecidableEq, Repr

/-- The default `PlayingSound()` constructor sets only
`tag = InvalidType`; every other field is uninitialized in C++ and is
never read before being overwritten by a play call.  The model fixes
them (`id = 0` is significant: user-visible ids start at 1, see
`KameMix_init` setting `next_id = 1`). -/
def defaultSound : PlayingSound where
  buffer_pos := 0
  loop_count := 0
  group := -1
  id := 0
  fade_total := 0
  fade_time := 0
  new_volume := 0
  lvolume := 0
  rvolume := 0
  x := 0
  y := 0
  max_distance := 0
  tag := InvalidType
  state := FinishedState

/-- `struct KameMix_Channel` of `KameMix.h`: `int idx; unsigned int id;`. -/
structure KameMix_Channel where
  idx : ℤ
  id : ℕ
  deriving DecidableEq, Repr

/-- Macro `KameMix_isChannelSet(channel)`: `(channel).idx >= 0`. -/
def KameMix_isChannelSet (c : KameMix_Channel) : Bool :=
  decide (0 ≤ c.idx)

/-- `nullChannel()` of `KameMix.cpp`: `KameMix_unsetChannel` sets
`idx = -1` (the `id` field is left as-is there; the model fixes it to
0, it is never read through an unset channel). -/
def nullChannel : KameMix_Channel where
  idx := -1
  id := 0

/-- The mutable fields of the global `kame_mix` singleton
(`struct KameMixData`) that the modelled operations touch. -/
structure MixState where
  sounds : List PlayingSound
  free_list : List ℕ
  number_playing : ℤ
  groups : List ℚ
  master_volume : ℚ
  listener_x : ℚ
  listener_y : ℚ
  next_id : ℕ
  secs_per_callback : ℚ
  frequency : ℤ
  deriving DecidableEq, Repr

/-- Read `(*kame_mix.sounds)[idx]`.  Out-of-range indexing is UB in the
source and excluded by the theorems; `getD` totalizes it with
`defaultSound`. -/
def getSound (st : MixState) (idx : ℤ) : PlayingSound :=
  st.sounds.getD idx.toNat defaultSound

/-- Write `(*kame_mix.sounds)[idx] = s` (no-op out of range, see
`getSound`). -/
def setSound (st : MixState) (idx : ℤ) (s : PlayingSound) : MixState :=
  { st with sounds := st.sounds.set idx.toNat s }

/-- `PlayingSound::unsetFade`: `fade_total = fade_time = 0`. -/
def PlayingSound.unsetFade (s : PlayingSound) : PlayingSound :=
  { s with fade_total := 0, fade_time := 0 }

/-- `PlayingSound::setFadein` (KameMix.cpp 935-943). -/
def PlayingSound.setFadein (cb : ℚ) (fade : ℚ) (s : PlayingSound) : PlayingSound :=
  if fade > cb then
    { s with fade_total := fade, fade_time := 0 }
  else
    { s with fade_total := cb, fade_time := 0 }

/-- `PlayingSound::setFadeout` (KameMix.cpp 946-954); `cb` is
`kame_mix.secs_per_callback`. -/
def PlayingSound.setFadeout (cb : ℚ) (fade : ℚ) (s : PlayingSound) : PlayingSound :=
  if fade > cb then
    { s with fade_total := -fade, fade_time := fade }
  else
    { s with fade_total := -cb, fade_time := cb }

/-- `PlayingSound::decrementLoopCount` (KameMix.cpp 956-964). -/
def PlayingSound.decrementLoopCount (s : PlayingSound) : PlayingSound :=
  if s.loop_count = 0 then
    { s with state := FinishedState }
  else if s.loop_count > 0 then
    { s with loop_count := s.loop_count - 1 }
  else
    s

/-- `PlayingSound::release` (KameMix.cpp 895-909) minus the refcount
traffic: `tag = InvalidType; id = 0`. -/
def PlayingSound.release (s : PlayingSound) : PlayingSound :=
  { s with tag := InvalidType, id := 0 }

/-- `PlayingSound::volumeInGroup` (KameMix.cpp 912-919):
`new_volume * master_volume`, times `(*groups)[group]` when
`group >= 0`.  The source indexes `groups` only in range (asserted in
the group functions); `getD` totalizes with 1. -/
def PlayingSound.volumeInGroup (master : ℚ) (groups : List ℚ) (s : PlayingSound) : ℚ :=
  let v := s.new_volume * master
  if 0 ≤ s.group then v * groups.getD s.group.toNat 1 else v

/-- Lines 1056-1068 of `PlayingSound::getVolumeData`: from the two
per-channel fade deltas, divide into 2 percent steps
(`delta_step = 0.02f`), truncate (`(int)std::abs(...)`), cap at 50, and
derive the per-step increments `lmod = lfade_delta / (mod_times + 1)`,
`rmod = rfade_delta / (mod_times + 1)`.
Returns `(mod_times, lmod, rmod)`. -/
def computeVolumeMods (lfade_delta rfade_delta : ℚ) : ℕ × ℚ × ℚ :=
  let max_delta := max lfade_delta rfade_delta
  let delta_step : ℚ := 2 / 100
  let mt0 : ℕ := (Int.floor |max_delta / delta_step|).toNat
  let mod_times : ℕ := if mt0 > 50 then 50 else mt0
  (mod_times, lfade_delta / ((mod_times : ℚ) + 1), rfade_delta / ((mod_times : ℚ) + 1))

/-- `PlayingSound::getVolumeData` (KameMix.cpp 995-1097).  `cb` is
`kame_mix.secs_per_callback`, `master` is `kame_mix.master_volume`,
`groups` is `*kame_mix.groups`, and `vfade` is the result of
`applyPosition` on the voice's relative position (see the header
comment).  Returns the `VolumeData` together with the updated voice
(the source method mutates `lvolume`, `rvolume`, `state`, `fade_total`
and `fade_time` in place). -/
def PlayingSound.getVolumeData (cb master : ℚ) (groups : List ℚ)
    (vfade : VolumeFade) (s : PlayingSound) : VolumeData × PlayingSound :=
  let new_lvol0 := s.volumeInGroup master groups
  let new_lvol := new_lvol0 * vfade.left_fade
  let new_rvol := new_lvol0 * vfade.right_fade
  if s.fade_total ≠ 0 ∨ (s.state = PausingState ∨ s.state = UnpausingState) ∨
      (s.lvolume ≠ new_lvol ∨ s.rvolume ≠ new_rvol) then
    let start_fade : ℚ :=
      if 0 < s.fade_total then s.fade_time / s.fade_total
      else if s.fade_total < 0 then s.fade_time / (-s.fade_total)
      else 1
    let end_fade : ℚ :=
      if 0 < s.fade_total then (s.fade_time + cb) / s.fade_total
      else if s.fade_total < 0 then (s.fade_time - cb) / (-s.fade_total)
      else 1
    let adjust0 : Bool := decide (0 < s.fade_total) || decide (s.fade_total < 0)
    let volStep :=
      if s.lvolume ≠ new_lvol ∨ s.rvolume ≠ new_rvol then
        let lv := if s.lvolume = 0 then (1 : ℚ) / 100 else s.lvolume
        let rv := if s.rvolume = 0 then (1 : ℚ) / 100 else s.rvolume
        (lv, rv, end_fade * (new_lvol / lv), end_fade * (new_rvol / rv),
          { s with lvolume := new_lvol, rvolume := new_rvol })
      else
        (s.lvolume, s.rvolume, end_fade, end_fade, s)
    let left_volume := volStep.1
    let right_volume := volStep.2.1
    let pauseStep :=
      if s.state = PausingState then
        (start_fade, start_fade, (0 : ℚ), (0 : ℚ), false,
          { volStep.2.2.2.2 with state := PausedState })
      else if s.state = UnpausingState then
        ((0 : ℚ), (0 : ℚ), volStep.2.2.1, volStep.2.2.2.1, false,
          { volStep.2.2.2.2 with state := PlayingState })
      else
        (start_fade, start_fade, volStep.2.2.1, volStep.2.2.2.1, adjust0,
          volStep.2.2.2.2)
    let start_lfade := pauseStep.1
    let start_rfade := pauseStep.2.1
    let lfade_delta := pauseStep.2.2.1 - start_lfade
    let rfade_delta := pauseStep.2.2.2.1 - start_rfade
    let adjust := pauseStep.2.2.2.2.1
    let s2 := pauseStep.2.2.2.2.2
    let mods := computeVolumeMods lfade_delta rfade_delta
    let vdata : VolumeData :=
      { left_volume, right_volume, lfade := start_lfade, rfade := start_rfade,
        lmod := mods.2.1, rmod := mods.2.2, mod_times := mods.1 }
    let s3 :=
      if adjust then
        if s2.fade_total < 0 then
          let ft := s2.fade_time - cb
          if ft ≤ 0 then
            { s2 with state := FinishedState, fade_total := 0, fade_time := 0 }
          else
            { s2 with fade_time := ft }
        else
          let ft := s2.fade_time + cb
          if s2.fade_total ≤ ft then
            { s2 with fade_total := 0, fade_time := 0 }
          else
            { s2 with fade_time := ft }
      else s2
    (vdata, s3)
  else
    ({ left_volume := s.lvolume, right_volume := s.rvolume, lfade := 1, rfade := 1,
       lmod := 0, rmod := 0, mod_times := 0 }, s)

/-- `findFreeChannel_locked` (KameMix.cpp 384-396): bump
`number_playing`; pop the free-list back if nonempty, else push a
default `PlayingSound()` and use the new last index.  Returns the new
state and the chosen index. -/
def findFreeChannel_locked (st : MixState) : MixState × ℕ :=
  let st1 := { st with number_playing := st.number_playing + 1 }
  match st1.free_list.getLast? with
  | some idx => ({ st1 with free_list := st1.free_list.dropLast }, idx)
  | none => ({ st1 with sounds := st1.sounds ++ [defaultSound] }, st1.sounds.length)

/-- `freeChannel_locked` (KameMix.cpp 398-405): push `idx` on the
free-list, decrement `number_playing`, set the voice Finished and
release it. -/
def freeChannel_locked (st : MixState) (idx : ℤ) : MixState :=
  let s := getSound st idx
  let st1 := { st with
    free_list := st.free_list ++ [idx.toNat]
    number_playing := st.number_playing - 1 }
  setSound st1 idx (PlayingSound.release { s with state := FinishedState })

/-- `fadeoutChannel_locked` (KameMix.cpp 407-414). -/
def fadeoutChannel_locked (st : MixState) (c : KameMix_Channel) (fade_secs : ℚ) : MixState :=
  let s := getSound st c.idx
  if s.id = c.id ∧ s.tag ≠ InvalidType then
    setSound st c.idx (s.setFadeout st.secs_per_callback fade_secs)
  else st

/-- `haltChannel_locked` (KameMix.cpp 416-423). -/
def haltChannel_locked (st : MixState) (c : KameMix_Channel) : MixState :=
  let s := getSound st c.idx
  if s.id = c.id ∧ s.tag ≠ InvalidType then freeChannel_locked st c.idx else st

/-- `KameMix_halt` (KameMix.cpp 437-443). -/
def KameMix_halt (st : MixState) (c : KameMix_Channel) : MixState :=
  if KameMix_isChannelSet c then haltChannel_locked st c else st

/-- `KameMix_fadeout` (KameMix.cpp 450-456). -/
def KameMix_fadeout (st : MixState) (c : KameMix_Channel) (fade_secs : ℚ) : MixState :=
  if KameMix_isChannelSet c then fadeoutChannel_locked st c fade_secs else st

/-- `KameMix_stop` (KameMix.cpp 445-448): `KameMix_fadeout(c, -1.0f)`. -/
def KameMix_stop (st : MixState) (c : KameMix_Channel) : MixState :=
  KameMix_fadeout st c (-1)

/-- `KameMix_isPlaying` (KameMix.cpp 458-468). -/
def KameMix_isPlaying (st : MixState) (c : KameMix_Channel) : ℤ :=
  if KameMix_isChannelSet c then
    let s := getSound st c.idx
    if s.id = c.id ∧ (s.state = PlayingState ∨ s.state = UnpausingState) then 1 else 0
  else 0

/-- `KameMix_isPaused` (KameMix.cpp 470-480). -/
def KameMix_isPaused (st : MixState) (c : KameMix_Channel) : ℤ :=
  if KameMix_isChannelSet c then
    let s := getSound st c.idx
    if s.id = c.id ∧ (s.state = PausedState ∨ s.state = PausingState) then 1 else 0
  else 0

/-- `KameMix_isFinished` (KameMix.cpp 482-495). -/
def KameMix_isFinished (st : MixState) (c : KameMix_Channel) : ℤ :=
  if KameMix_isChannelSet c then
    let s := getSound st c.idx
    if s.id = c.id then
      if s.state = FinishedState then 1 else 0
    else 1
  else 1

/-- `KameMix_pause` (KameMix.cpp 497-510). -/
def KameMix_pause (st : MixState) (c : KameMix_Channel) : MixState :=
  if KameMix_isChannelSet c then
    let s := getSound st c.idx
    if c.id = s.id then
      if s.state = PlayingState then
        setSound st c.idx { s with state := PausingState }
      else if s.state = UnpausingState then
        setSound st c.idx { s with state := PausedState }
      else st
    else st
  else st

/-- `KameMix_unpause` (KameMix.cpp 512-525). -/
def KameMix_unpause (st : MixState) (c : KameMix_Channel) : MixState :=
  if KameMix_isChannelSet c then
    let s := getSound st c.idx
    if c.id = s.id then
      if s.state = PausedState then
        setSound st c.idx { s with state := UnpausingState }
      else if s.state = PausingState then
        setSound st c.idx { s with state := PlayingState }
      else st
    else st
  else st

/-- `KameMix_setLoopCount` (KameMix.cpp 527-538). -/
def KameMix_setLoopCount (st : MixState) (c : KameMix_Channel) (loops : ℤ) :
    MixState × KameMix_Channel :=
  if KameMix_isChannelSet c then
    let s := getSound st c.idx
    if s.id = c.id then (setSound st c.idx { s with loop_count := loops }, c)
    else (st, nullChannel)
  else (st, nullChannel)

/-- `KameMix_getLoopCount` (KameMix.cpp 540-550). -/
def KameMix_getLoopCount (st : MixState) (c : KameMix_Channel) : ℤ :=
  if KameMix_isChannelSet c then
    let s := getSound st c.idx
    if s.id = c.id then s.loop_count else 0
  else 0

/-- `KameMix_setPos` (KameMix.cpp 552-564). -/
def KameMix_setPos (st : MixState) (c : KameMix_Channel) (x y : ℚ) :
    MixState × KameMix_Channel :=
  if KameMix_isChannelSet c then
    let s := getSound st c.idx
    if s.id = c.id then (setSound st c.idx { s with x := x, y := y }, c)
    else (st, nullChannel)
  else (st, nullChannel)

/-- `KameMix_getPos` (KameMix.cpp 566-579). -/
def KameMix_getPos (st : MixState) (c : KameMix_Channel) : ℚ × ℚ :=
  if KameMix_isChannelSet c then
    let s := getSound st c.idx
    if s.id = c.id then (s.x, s.y) else (0, 0)
  else (0, 0)

/-- `KameMix_setMaxDistance` (KameMix.cpp 581-592). -/
def KameMix_setMaxDistance (st : MixState) (c : KameMix_Channel) (distance : ℚ) :
    MixState × KameMix_Channel :=
  if KameMix_isChannelSet c then
    let s := getSound st c.idx
    if s.id = c.id then (setSound st c.idx { s with max_distance := distance }, c)
    else (st, nullChannel)
  else (st, nullChannel)

/-- `KameMix_getMaxDistance` (KameMix.cpp 594-604). -/
def KameMix_getMaxDistance (st : MixState) (c : KameMix_Channel) : ℚ :=
  if KameMix_isChannelSet c then
    let s := getSound st c.idx
    if s.id = c.id then s.max_distance else 0
  else 0

/-- `KameMix_setGroup` (KameMix.cpp 606-617). -/
def KameMix_setGroup (st : MixState) (c : KameMix_Channel) (group : ℤ) :
    MixState × KameMix_Channel :=
  if KameMix_isChannelSet c then
    let s := getSound st c.idx
    if s.id = c.id then (setSound st c.idx { s with group := group }, c)
    else (st, nullChannel)
  else (st, nullChannel)

/-- `KameMix_getGroup` (KameMix.cpp 619-629). -/
def KameMix_getGroup (st : MixState) (c : KameMix_Channel) : ℤ :=
  if KameMix_isChannelSet c then
    let s := getSound st c.idx
    if s.id = c.id then s.group else -1
  else -1

/-- `KameMix_setVolume` (KameMix.cpp 631-642). -/
def KameMix_setVolume (st : MixState) (c : KameMix_Channel) (volume : ℚ) :
    MixState × KameMix_Channel :=
  if KameMix_isChannelSet c then
    let s := getSound st c.idx
    if s.id = c.id then (setSound st c.idx { s with new_volume := volume }, c)
    else (st, nullChannel)
  else (st, nullChannel)

/-- `KameMix_getVolume` (KameMix.cpp 644-654). -/
def KameMix_getVolume (st : MixState) (c : KameMix_Channel) : ℚ :=
  if KameMix_isChannelSet c then
    let s := getSound st c.idx
    if s.id = c.id then s.new_volume else 1
  else 1

/-- `KameMix_createGroup` (KameMix.cpp 232-237): append a group at
volume 1.0 and return the new last index. -/
def KameMix_createGroup (st : MixState) : MixState × ℤ :=
  let st1 := { st with groups := st.groups ++ [1] }
  (st1, (st1.groups.length : ℤ) - 1)

/-- `KameMix_setGroupVolume` (KameMix.cpp 239-244); the source asserts
`0 <= group < groups->size()`. -/
def KameMix_setGroupVolume (st : MixState) (group : ℤ) (volume : ℚ) : MixState :=
  { st with groups := st.groups.set group.toNat volume }

/-- `KameMix_getGroupVolume` (KameMix.cpp 246-251); the source asserts
the index in range, `getD` totalizes with 0. -/
def KameMix_getGroupVolume (st : MixState) (group : ℤ) : ℚ :=
  st.groups.getD group.toNat 0

/-- Truncation of a real value stored into a C `int`: toward zero. -/
def cIntOfRat (q : ℚ) : ℤ :=
  if 0 ≤ q then ⌊q⌋ else ⌈q⌉

/-- `soundTimeToBytePos` (KameMix.cpp 691-704).  `freq` is
`KameMix_getFrequency()`, `blockSize` is `buffer.sampleBlockSize()`,
`size` is `buffer.size()`. -/
def soundTimeToBytePos (freq blockSize size : ℤ) (secs : ℚ) : ℤ :=
  if secs = 0 then 0
  else
    let sample_pos := cIntOfRat (secs * (freq : ℚ))
    let byte_pos := sample_pos * blockSize
    if byte_pos < 0 ∨ byte_pos ≥ size then 0 else byte_pos

/-- The common body of the two `PlayingSound` constructors
(KameMix.cpp 831-893); they differ only in the union member they set
and the refcount they bump.  `cb` is `kame_mix.secs_per_callback`. -/
def PlayingSound.create (cb : ℚ) (tag : PlayingType) (loops buf_pos : ℤ)
    (paused : Bool) (fade vol x y max_distance : ℚ) (group : ℤ) (id : ℕ) :
    PlayingSound :=
  let s : PlayingSound :=
    { buffer_pos := buf_pos, loop_count := loops, group, id,
      fade_total := 0, fade_time := 0,
      new_volume := vol, lvolume := vol, rvolume := vol,
      x, y, max_distance, tag,
      state := if paused then PausedState else PlayingState }
  if fade = 0 then s.unsetFade else s.setFadein cb fade

/-- `KameMix_playSound` (KameMix.cpp 706-725).  The loaded sound is
represented by its buffer geometry (`blockSize`, `size`); the model
tracks everything else the function does: fade out a previously set
channel, grab a free slot and a fresh id, convert `start_sec`, and
install the new voice. -/
def KameMix_playSound (st : MixState) (blockSize size : ℤ) (c : KameMix_Channel)
    (start_sec : ℚ) (loops : ℤ) (vol fade_secs x y max_distance : ℚ)
    (group : ℤ) (paused : Bool) : MixState × KameMix_Channel :=
  let st1 := if KameMix_isChannelSet c then fadeoutChannel_locked st c (-1) else st
  let fc := findFreeChannel_locked st1
  let st2 := fc.1
  let idx : ℤ := (fc.2 : ℤ)
  let id := st2.next_id
  let st3 := { st2 with next_id := st2.next_id + 1 }
  let byte_pos := soundTimeToBytePos st3.frequency blockSize size start_sec
  let v := PlayingSound.create st3.secs_per_callback SoundType loops byte_pos
    paused fade_secs vol x y max_distance group id
  (setSound st3 idx v, { idx := idx, id := id })

/-- The two-argument `applyVolume<T>(stream, len, left_vol, right_vol)`
(KameMix.cpp 1159-1166): `stream[i] *= left_vol; stream[i+1] *= right_vol`
for `i = 0, 2, 4, ...`.  The buffer is a `List ℚ` of interleaved stereo
samples; every call site passes an even `len` equal to the length of the
span handed in (an odd `len` would read one sample past the span in C;
the `[a]` case below scales the left sample and stops). -/
def applyVolume2 (left_vol right_vol : ℚ) : List ℚ → List ℚ
  | [] => []
  | [a] => [a * left_vol]
  | a :: b :: rest => a * left_vol :: b * right_vol :: applyVolume2 left_vol right_vol rest

/-- The span loop of `applyVolume<T>(stream, len_, vdata)`
(KameMix.cpp 1168-1192): `k + 1` spans remain; the first `k` have
`len` samples each and use fade `vdata.lfade + i * vdata.lmod`
(resp. `rfade`/`rmod`) for the running span index `i`; the final span
(`k = 0`) takes all remaining samples (`len = len_ - pos` in the
source) at fade index `i`. -/
def applySpans (vd : VolumeData) (len : ℕ) : ℕ → ℕ → List ℚ → List ℚ
  | 0, i, s =>
      applyVolume2 (vd.left_volume * (vd.lfade + (i : ℚ) * vd.lmod))
        (vd.right_volume * (vd.rfade + (i : ℚ) * vd.rmod)) s
  | k + 1, i, s =>
      applyVolume2 (vd.left_volume * (vd.lfade + (i : ℚ) * vd.lmod))
        (vd.right_volume * (vd.rfade + (i : ℚ) * vd.rmod)) (s.take len) ++
        applySpans vd len k (i + 1) (s.drop len)

/-- `applyVolume<T>(stream, len_, const VolumeData&)`
(KameMix.cpp 1168-1192) on a whole block `s` (`len_ = s.length`):
`len = (len_ / 2) / (mod_times + 1) * 2`, then `mod_times` spans of
`len` samples followed by the remainder span. -/
def applyVolumeData (vd : VolumeData) (s : List ℚ) : List ℚ :=
  applySpans vd (s.length / 2 / (vd.mod_times + 1) * 2) vd.mod_times 0 s

/-- Length of the equal sub-spans `applyVolumeData` cuts a block of `n`
samples into: `(n / 2) / (mod_times + 1) * 2`. -/
def subSpanLen (vd : VolumeData) (n : ℕ) : ℕ :=
  n / 2 / (vd.mod_times + 1) * 2

/-- With `k` equal-length spans of `len` samples remaining before the
final remainder span, the number of fade steps sample `j` (counted from
the start of the remaining block) lies past. -/
def spanStepCount (len k j : ℕ) : ℕ :=
  if len = 0 then k else min (j / len) k

/-- Which of the `mod_times + 1` sub-spans sample `j` of an `n`-sample
block falls in: spans `0, ..., mod_times - 1` have `subSpanLen`
samples each, the last span absorbs the remainder. -/
def spanIndexOf (vd : VolumeData) (n j : ℕ) : ℕ :=
  spanStepCount (subSpanLen vd n) vd.mod_times j

/-- The gain `applyVolumeData` applies to sample `j` of an `n`-sample
block: left channel on even `j`, right on odd, with the fade of the
sub-span `j` falls in. -/
def gainAt (vd : VolumeData) (n j : ℕ) : ℚ :=
  if j % 2 = 0 then
    vd.left_volume * (vd.lfade + (spanIndexOf vd n j : ℚ) * vd.lmod)
  else
    vd.right_volume * (vd.rfade + (spanIndexOf vd n j : ℚ) * vd.rmod)

/-- The `while` loop of `copySound` (KameMix.cpp 1194-1227)
specialized to `CopyStereo` (KameMix.cpp 1308-1316), whose copy result
is `target_amount = src_amount = min(dst_len, src_len)`; the model
tracks the byte amounts and the voice, not the bytes moved.  `size` is
`sound_buf.size()`.  `fuel` bounds the loop iterations (the C loop
terminates on its own: each pass either breaks or consumes the
remaining source). -/
def copySoundStereo (size : ℤ) : ℕ → PlayingSound → ℤ → ℤ → PlayingSound × ℤ
  | 0, snd, _, total => (snd, total)
  | fuel + 1, snd, buf_left, total =>
    if snd.state = FinishedState then (snd, total)
    else
      let src_left := size - snd.buffer_pos
      let cpy := min buf_left src_left
      if cpy < src_left then
        ({ snd with buffer_pos := snd.buffer_pos + cpy }, total + cpy)
      else
        copySoundStereo size fuel
          { snd.decrementLoopCount with buffer_pos := 0 } (buf_left - cpy) (total + cpy)

/-- The voice loop of `audioCallback` (KameMix.cpp 1401-1407):
`for (int i = 0; i < (int)kame_mix.sounds->size(); ++i)` — the bound
re-reads `sounds->size()` on every iteration.  `adds` lists how many
voices the host appends while the callback is unlocked during
iteration `i` (one entry per executed iteration; once `adds` is
exhausted no further voices arrive and the loop runs out at the
current size).  Returns the list of indices the loop processes. -/
def audioCallbackLoop (i size : ℕ) : List ℕ → List ℕ
  | [] => List.range' i (size - i)
  | a :: rest =>
    if i < size then i :: audioCallbackLoop (i + 1) (size + a) rest else []

/-- The iteration scheme the spec describes instead: snapshot the voice
count when the callback starts and iterate `i = 0 ... count_at_start - 1`. -/
def audioCallbackLoopSnapshot (size : ℕ) : List ℕ :=
  List.range size

/-! Helper lemmas about the registry model. -/

theorem defaultSound_id : defaultSound.id = 0 := rfl

theorem getSound_lt_of_id_pos (st : MixState) (i : ℤ)
    (h : 1 ≤ (getSound st i).id) : i.toNat < st.sounds.length := by
  by_contra hge
  rw [getSound, List.getD_eq_default] at h
  · simp [defaultSound] at h
  · omega

theorem getSound_setSound_self (st : MixState) (i : ℤ) (v : PlayingSound)
    (h : i.toNat < st.sounds.length) : getSound (setSound st i v) i = v := by
  rw [getSound, setSound]
  rw [List.getD_eq_getElem _ _ (by simpa using h)]
  simp

theorem setSound_sounds_length (st : MixState) (i : ℤ) (v : PlayingSound) :
    (setSound st i v).sounds.length = st.sounds.length := by
  simp [setSound]

theorem setSound_free_list (st : MixState) (i : ℤ) (v : PlayingSound) :
    (setSound st i v).free_list = st.free_list := rfl

theorem setSound_secs (st : MixState) (i : ℤ) (v : PlayingSound) :
    (setSound st i v).secs_per_callback = st.secs_per_callback := rfl

/-- C7 helper: state of an example playing voice used by witnesses. -/
def examplePlayingVoice : PlayingSound :=
  { defaultSound with
    id := 7
    tag := SoundType
    state := PlayingState
    new_volume := 1
    lvolume := 1
    rvolume := 1
    loop_count := 0 }

/-- Example mixer state holding one playing voice in slot 0 (used by the
concrete witness instances). -/
def exampleState : MixState where
  sounds := [examplePlayingVoice]
  free_list := []
  number_playing := 1
  groups := [5]
  master_volume := 1
  listener_x := 0
  listener_y := 0
  next_id := 8
  secs_per_callback := 1
  frequency := 44100

/-- Channel handle for slot 0 / id 7 of `exampleState`. -/
def exampleChannel : KameMix_Channel where
  idx := 0
  id := 7

/-- C7: on an EOF-advance (`copySound` consumed the rest of the source,
KameMix.cpp 1218-1223) the voice is advanced by `decrementLoopCount`
(KameMix.cpp 956-964) with the cursor rewound to 0:
`loop_count = 0` finishes the voice, `loop_count = n > 0` becomes
`n - 1` with the state untouched, and a negative `loop_count`
(infinite looping, `-1`) leaves both `loop_count` and `state`
unchanged. -/
theorem C7_loop_count_eof_advance :
    ∀ s : PlayingSound,
      (s.loop_count = 0 → s.decrementLoopCount = { s with state := FinishedState }) ∧
      (0 < s.loop_count →
        s.decrementLoopCount = { s with loop_count := s.loop_count - 1 }) ∧
      (s.loop_count < 0 → s.decrementLoopCount = s) ∧
      (∀ (size : ℤ) (fuel : ℕ) (buf_left total : ℤ),
        s.state ≠ FinishedState → size - s.buffer_pos ≤ buf_left →
        copySoundStereo size (fuel + 1) s buf_left total =
          copySoundStereo size fuel { s.decrementLoopCount with buffer_pos := 0 }
            (buf_left - (size - s.buffer_pos)) (total + (size - s.buffer_pos))) := by
  intro s
  refine ⟨?_, ?_, ?_, ?_⟩
  · intro h
    rw [PlayingSound.decrementLoopCount, if_pos h]
  · intro h
    rw [PlayingSound.decrementLoopCount, if_neg (by omega), if_pos h]
  · intro h
    rw [PlayingSound.decrementLoopCount, if_neg (by omega), if_neg (by omega)]
  · intro size fuel buf_left total hst hle
    rw [copySoundStereo, if_neg hst]
    simp only [min_eq_right hle, lt_irrefl, if_false]

/-- C7 witness: concrete EOF-advances for `loop_count` 0, 2 and −1. -/
theorem C7_witness :
    ((examplePlayingVoice.loop_count = 0 ∧
        examplePlayingVoice.decrementLoopCount =
          { examplePlayingVoice with state := FinishedState }) ∧
      (0 < ({ examplePlayingVoice with loop_count := 2 } : PlayingSound).loop_count ∧
        ({ examplePlayingVoice with loop_count := 2 } : PlayingSound).decrementLoopCount =
          { examplePlayingVoice with loop_count := 1 }) ∧
      (({ examplePlayingVoice with loop_count := -1 } : PlayingSound).loop_count < 0 ∧
        ({ examplePlayingVoice with loop_count := -1 } : PlayingSound).decrementLoopCount =
          { examplePlayingVoice with loop_count := -1 })) ∧
    (examplePlayingVoice.state ≠ FinishedState ∧
      (4 : ℤ) - examplePlayingVoice.buffer_pos ≤ 10 ∧
      copySoundStereo 4 2 examplePlayingVoice 10 0 =
        copySoundStereo 4 1 { examplePlayingVoice.decrementLoopCount with buffer_pos := 0 }
          (10 - (4 - examplePlayingVoice.buffer_pos))
          (0 + (4 - examplePlayingVoice.buffer_pos))) := by
  refine ⟨⟨⟨by decide, (C7_loop_count_eof_advance examplePlayingVoice).1 (by decide)⟩,
    ⟨by decide, ?_⟩, ⟨by decide, ?_⟩⟩,
    by decide, by decide,
    (C7_loop_count_eof_advance examplePlayingVoice).2.2.2 4 1 10 0 (by decide) (by decide)⟩
  · have h := (C7_loop_count_eof_advance
      ({ examplePlayingVoice with loop_count := 2 } : PlayingSound)).2.1 (by decide)
    rw [h]
    decide
  · have h := (C7_loop_count_eof_advance
      ({ examplePlayingVoice with loop_count := -1 } : PlayingSound)).2.2.1 (by decide)
    rw [h]

/-- C5: `setFadeout` (KameMix.cpp 946-954) sets
`fade_total = -max(fade, callback_period)` and `fade_time = -fade_total`,
so the fade-out is always at least one callback period long; `stop`
(`KameMix_fadeout(c, -1.0f)`, KameMix.cpp 445-448) therefore gives a
live voice the minimum fade-out of one callback period — never no
fade. -/
theorem C5_stop_minimum_fadeout :
    ∀ (cb fade : ℚ) (s : PlayingSound), 0 < cb →
      ((s.setFadeout cb fade).fade_total = -(max fade cb) ∧
        (s.setFadeout cb fade).fade_time = max fade cb ∧
        (s.setFadeout cb fade).fade_total < 0) ∧
      (∀ (st : MixState) (c : KameMix_Channel),
        KameMix_isChannelSet c = true → (getSound st c.idx).id = c.id →
        (getSound st c.idx).tag ≠ InvalidType → 1 ≤ c.id →
        st.secs_per_callback = cb →
        getSound (KameMix_stop st c) c.idx = (getSound st c.idx).setFadeout cb (-1) ∧
        (getSound (KameMix_stop st c) c.idx).fade_total = -cb ∧
        (getSound (KameMix_stop st c) c.idx).fade_time = cb) := by
  intro cb fade s hcb
  have hmain : ∀ (f : ℚ) (t : PlayingSound),
      (t.setFadeout cb f).fade_total = -(max f cb) ∧
      (t.setFadeout cb f).fade_time = max f cb := by
    intro f t
    rw [PlayingSound.setFadeout]
    by_cases h : f > cb
    · rw [if_pos h]
      simp [max_eq_left (le_of_lt h)]
    · rw [if_neg h]
      simp [max_eq_right (le_of_not_lt h)]
  refine ⟨⟨(hmain fade s).1, (hmain fade s).2, ?_⟩, ?_⟩
  · rw [(hmain fade s).1]
    have : 0 < max fade cb := lt_of_lt_of_le hcb (le_max_right fade cb)
    linarith
  · intro st c hset hid htag hpos hsecs
    have hlt : c.idx.toNat < st.sounds.length :=
      getSound_lt_of_id_pos st c.idx (hid ▸ hpos)
    have hres : getSound (KameMix_stop st c) c.idx =
        (getSound st c.idx).setFadeout cb (-1) := by
      rw [KameMix_stop, KameMix_fadeout, if_pos hset, fadeoutChannel_locked]
      rw [if_pos ⟨hid, htag⟩, hsecs]
      exact getSound_setSound_self st c.idx _ hlt
    refine ⟨hres, ?_, ?_⟩
    · rw [hres, PlayingSound.setFadeout, if_neg (by linarith)]
    · rw [hres, PlayingSound.setFadeout, if_neg (by linarith)]

/-- C5 witness: stopping the example voice starts the minimum one-period
fade-out. -/
theorem C5_witness :
    (0 : ℚ) < 1 ∧
    (examplePlayingVoice.setFadeout 1 (-2)).fade_total = -(max (-2) 1) ∧
    getSound (KameMix_stop exampleState exampleChannel) exampleChannel.idx =
      (getSound exampleState exampleChannel.idx).setFadeout 1 (-1) ∧
    (getSound (KameMix_stop exampleState exampleChannel) exampleChannel.idx).fade_total =
      -1 := by
  have h := C5_stop_minimum_fadeout 1 (-2) examplePlayingVoice (by norm_num)
  have h2 := h.2 exampleState exampleChannel (by decide) (by decide) (by decide)
    (by decide) (by decide)
  exact ⟨by norm_num, h.1.1, h2.1, h2.2.1⟩

/-- C2 counterexample: in `play_sound` the constructor runs
`if (fade == 0) unsetFade(); else setFadein(fade);` (KameMix.cpp
850-855), so `fade_secs = -1` is NOT ignored: with a callback period of
1 s the new voice gets `fade_total = 1`, a (minimum) fade-in, not
`fade_total = 0`. -/
theorem C2_counterexample :
    (PlayingSound.create 1 SoundType 0 0 false (-1) 1 0 0 0 (-1) 5).fade_total = 1 ∧
    ¬((PlayingSound.create 1 SoundType 0 0 false (-1) 1 0 0 0 (-1) 5).fade_total = 0 ∧
      (PlayingSound.create 1 SoundType 0 0 false (-1) 1 0 0 0 (-1) 5).fade_time = 0) := by
  decide

/-- C2 (amended): in `play_sound`, `fade_secs = 0` means no fade
(`fade_total = fade_time = 0`); every other value — positive or
negative — produces a fade-in with
`fade_total = max(fade_secs, callback_period)` and `fade_time = 0`; in
particular `fade_secs < 0` yields the minimum fade-in of one callback
period rather than being ignored. -/
theorem C2_fade_arg_semantics :
    ∀ (cb : ℚ) (tag : PlayingType) (loops buf_pos : ℤ) (paused : Bool)
      (fade vol x y maxd : ℚ) (group : ℤ) (id : ℕ), 0 < cb →
      (fade = 0 →
        (PlayingSound.create cb tag loops buf_pos paused fade vol x y maxd group id).fade_total = 0 ∧
        (PlayingSound.create cb tag loops buf_pos paused fade vol x y maxd group id).fade_time = 0) ∧
      (fade ≠ 0 →
        (PlayingSound.create cb tag loops buf_pos paused fade vol x y maxd group id).fade_total =
          max fade cb ∧
        (PlayingSound.create cb tag loops buf_pos paused fade vol x y maxd group id).fade_time = 0) ∧
      (fade < 0 →
        (PlayingSound.create cb tag loops buf_pos paused fade vol x y maxd group id).fade_total =
          cb) := by
  intro cb tag loops buf_pos paused fade vol x y maxd group id hcb
  refine ⟨?_, ?_, ?_⟩
  · intro h
    rw [PlayingSound.create, if_pos h]
    exact ⟨rfl, rfl⟩
  · intro h
    rw [PlayingSound.create, if_neg h, PlayingSound.setFadein]
    by_cases hgt : fade > cb
    · rw [if_pos hgt]
      exact ⟨by simp [max_eq_left (le_of_lt hgt)], rfl⟩
    · rw [if_neg hgt]
      exact ⟨by simp [max_eq_right (le_of_not_lt hgt)], rfl⟩
  · intro h
    rw [PlayingSound.create, if_neg (by linarith), PlayingSound.setFadein,
      if_neg (by linarith)]

/-- C2 witness: concrete instances of the amended fade-argument
semantics at `fade = 0`, `fade = 3` and `fade = -1` (callback period
1 s). -/
theorem C2_witness :
    (0 : ℚ) < 1 ∧
    (PlayingSound.create 1 SoundType 0 0 false 0 1 0 0 0 (-1) 5).fade_total = 0 ∧
    (PlayingSound.create 1 SoundType 0 0 false 3 1 0 0 0 (-1) 5).fade_total = max 3 1 ∧
    (PlayingSound.create 1 SoundType 0 0 false (-1) 1 0 0 0 (-1) 5).fade_total = 1 := by
  refine ⟨by norm_num,
    ((C2_fade_arg_semantics 1 SoundType 0 0 false 0 1 0 0 0 (-1) 5 (by norm_num)).1
      (by norm_num)).1,
    ((C2_fade_arg_semantics 1 SoundType 0 0 false 3 1 0 0 0 (-1) 5 (by norm_num)).2.1
      (by norm_num)).1,
    (C2_fade_arg_semantics 1 SoundType 0 0 false (-1) 1 0 0 0 (-1) 5 (by norm_num)).2.2
      (by norm_num)⟩

/-- C10: `KameMix_createGroup` (KameMix.cpp 232-237) appends one group
at volume 1.0 and returns its id, which equals the number of groups
before the call; immediately afterwards `KameMix_getGroupVolume` on the
returned id yields 1.0 and every previously created group keeps its id
and volume. -/
theorem C10_createGroup_appends :
    ∀ st : MixState,
      (KameMix_createGroup st).2 = (st.groups.length : ℤ) ∧
      KameMix_getGroupVolume (KameMix_createGroup st).1 (KameMix_createGroup st).2 = 1 ∧
      (∀ g : ℕ, g < st.groups.length →
        KameMix_getGroupVolume (KameMix_createGroup st).1 (g : ℤ) =
          KameMix_getGroupVolume st (g : ℤ)) := by
  intro st
  have hid : (KameMix_createGroup st).2 = (st.groups.length : ℤ) := by
    simp [KameMix_createGroup]
  refine ⟨hid, ?_, ?_⟩
  · rw [hid, KameMix_getGroupVolume, KameMix_createGroup]
    simp only [Int.toNat_natCast]
    rw [List.getD_append_right _ _ _ _ (le_refl _)]
    simp
  · intro g hg
    rw [KameMix_getGroupVolume, KameMix_getGroupVolume, KameMix_createGroup]
    simp only [Int.toNat_natCast]
    exact List.getD_append _ _ _ _ hg

/-- C10 witness: creating a group in the example state (one existing
group at volume 5). -/
theorem C10_witness :
    (KameMix_createGroup exampleState).2 = (1 : ℤ) ∧
    KameMix_getGroupVolume (KameMix_createGroup exampleState).1
      (KameMix_createGroup exampleState).2 = 1 ∧
    (0 : ℕ) < exampleState.groups.length ∧
    KameMix_getGroupVolume (KameMix_createGroup exampleState).1 ((0 : ℕ) : ℤ) =
      KameMix_getGroupVolume exampleState ((0 : ℕ) : ℤ) := by
  refine ⟨?_, (C10_createGroup_appends exampleState).2.1, by decide,
    (C10_createGroup_appends exampleState).2.2 0 (by decide)⟩
  have h := (C10_createGroup_appends exampleState).1
  rw [h]
  decide

/-- C3: the set/get volume round trip (KameMix.cpp 631-654).  While the
handle's id still matches its slot (the voice is live), `set_volume`
writes `new_volume` and `get_volume` reads it back exactly.  A voice
only ever becomes Finished for the user by being released
(`freeChannel_locked` runs in the same locked region that detects the
finish, KameMix.cpp 1422-1425, 416-423), which zeroes the slot id
(KameMix.cpp 895-909); after that — or whenever the id no longer
matches — `get_volume` returns 1.0 and `is_finished` returns 1.
User ids are at least 1 (`next_id` starts at 1, KameMix.cpp 341). -/
theorem C3_volume_round_trip :
    ∀ (st : MixState) (c : KameMix_Channel) (v : ℚ),
      (KameMix_isChannelSet c = true → (getSound st c.idx).id = c.id → 1 ≤ c.id →
        KameMix_getVolume (KameMix_setVolume st c v).1 c = v) ∧
      (KameMix_isChannelSet c = true → (getSound st c.idx).id ≠ c.id →
        KameMix_getVolume st c = 1 ∧ KameMix_isFinished st c = 1) ∧
      (KameMix_isChannelSet c = true → (getSound st c.idx).id = c.id →
        (getSound st c.idx).tag ≠ InvalidType → 1 ≤ c.id →
        KameMix_getVolume (KameMix_halt st c) c = 1 ∧
        KameMix_isFinished (KameMix_halt st c) c = 1) := by
  intro st c v
  refine ⟨?_, ?_, ?_⟩
  · intro hset hid hpos
    have hlt : c.idx.toNat < st.sounds.length :=
      getSound_lt_of_id_pos st c.idx (hid ▸ hpos)
    have hst : (KameMix_setVolume st c v).1 =
        setSound st c.idx { getSound st c.idx with new_volume := v } := by
      simp only [KameMix_setVolume, hset, if_true, hid, if_pos]
    rw [KameMix_getVolume, if_pos hset, hst,
      getSound_setSound_self _ _ _ hlt]
    simp only [hid, if_pos]
  · intro hset hid
    constructor
    · rw [KameMix_getVolume, if_pos hset]
      simp only [hid, if_false]
    · rw [KameMix_isFinished, if_pos hset]
      simp only [hid, if_false]
  · intro hset hid htag hpos
    have hlt : c.idx.toNat < st.sounds.length :=
      getSound_lt_of_id_pos st c.idx (hid ▸ hpos)
    have hhalt : KameMix_halt st c = freeChannel_locked st c.idx := by
      rw [KameMix_halt, if_pos hset, haltChannel_locked, if_pos ⟨hid, htag⟩]
    have hslot : getSound (KameMix_halt st c) c.idx =
        PlayingSound.release { getSound st c.idx with state := FinishedState } := by
      rw [hhalt, freeChannel_locked]
      exact getSound_setSound_self _ _ _ (by simpa using hlt)
    have hzero : (getSound (KameMix_halt st c) c.idx).id = 0 := by
      rw [hslot]
      rfl
    have hne : (getSound (KameMix_halt st c) c.idx).id ≠ c.id := by
      rw [hzero]
      omega
    constructor
    · rw [KameMix_getVolume, if_pos hset]
      simp only [hne, if_false]
    · rw [KameMix_isFinished, if_pos hset]
      simp only [hne, if_false]

/-- C3 witness: set then get the volume of the live example voice, and
the defaults after halting it. -/
theorem C3_witness :
    KameMix_getVolume (KameMix_setVolume exampleState exampleChannel 3).1
      exampleChannel = 3 ∧
    KameMix_getVolume (KameMix_halt exampleState exampleChannel) exampleChannel = 1 ∧
    KameMix_isFinished (KameMix_halt exampleState exampleChannel) exampleChannel = 1 := by
  have h1 := (C3_volume_round_trip exampleState exampleChannel 3).1
    (by decide) (by decide) (by decide)
  have h3 := (C3_volume_round_trip exampleState exampleChannel 3).2.2
    (by decide) (by decide) (by decide) (by decide)
  exact ⟨h1, h3.1, h3.2⟩

theorem fadeoutChannel_number_playing (st : MixState) (c : KameMix_Channel) (f : ℚ) :
    (fadeoutChannel_locked st c f).number_playing = st.number_playing := by
  rw [fadeoutChannel_locked]
  split_ifs <;> rfl

theorem fadeoutChannel_next_id (st : MixState) (c : KameMix_Channel) (f : ℚ) :
    (fadeoutChannel_locked st c f).next_id = st.next_id := by
  rw [fadeoutChannel_locked]
  split_ifs <;> rfl

theorem fadeoutChannel_free_list (st : MixState) (c : KameMix_Channel) (f : ℚ) :
    (fadeoutChannel_locked st c f).free_list = st.free_list := by
  rw [fadeoutChannel_locked]
  split_ifs <;> rfl

theorem fadeoutChannel_sounds_length (st : MixState) (c : KameMix_Channel) (f : ℚ) :
    (fadeoutChannel_locked st c f).sounds.length = st.sounds.length := by
  rw [fadeoutChannel_locked]
  split_ifs
  · exact setSound_sounds_length _ _ _
  · rfl

theorem fadeoutChannel_secs (st : MixState) (c : KameMix_Channel) (f : ℚ) :
    (fadeoutChannel_locked st c f).secs_per_callback = st.secs_per_callback := by
  rw [fadeoutChannel_locked]
  split_ifs <;> rfl

theorem fadeoutChannel_frequency (st : MixState) (c : KameMix_Channel) (f : ℚ) :
    (fadeoutChannel_locked st c f).frequency = st.frequency := by
  rw [fadeoutChannel_locked]
  split_ifs <;> rfl

theorem findFreeChannel_number_playing (st : MixState) :
    (findFreeChannel_locked st).1.number_playing = st.number_playing + 1 := by
  rw [findFreeChannel_locked]
  cases h : ({ st with number_playing := st.number_playing + 1 } : MixState).free_list.getLast? <;>
    simp

theorem findFreeChannel_next_id (st : MixState) :
    (findFreeChannel_locked st).1.next_id = st.next_id := by
  rw [findFreeChannel_locked]
  cases h : ({ st with number_playing := st.number_playing + 1 } : MixState).free_list.getLast? <;>
    simp

theorem findFreeChannel_secs (st : MixState) :
    (findFreeChannel_locked st).1.secs_per_callback = st.secs_per_callback := by
  rw [findFreeChannel_locked]
  cases h : ({ st with number_playing := st.number_playing + 1 } : MixState).free_list.getLast? <;>
    simp

theorem findFreeChannel_frequency (st : MixState) :
    (findFreeChannel_locked st).1.frequency = st.frequency := by
  rw [findFreeChannel_locked]
  cases h : ({ st with number_playing := st.number_playing + 1 } : MixState).free_list.getLast? <;>
    simp

/-- The pointwise meaning of "operations on this handle are no-ops and
the query forms return their documented defaults" (spec section 6.1),
for one state and one channel handle. -/
def channelOpsNoop (st : MixState) (c : KameMix_Channel) : Prop :=
  (∀ fade : ℚ, KameMix_fadeout st c fade = st) ∧
  KameMix_halt st c = st ∧
  KameMix_stop st c = st ∧
  KameMix_pause st c = st ∧
  KameMix_unpause st c = st ∧
  (∀ loops : ℤ, (KameMix_setLoopCount st c loops).1 = st) ∧
  (∀ x y : ℚ, (KameMix_setPos st c x y).1 = st) ∧
  (∀ d : ℚ, (KameMix_setMaxDistance st c d).1 = st) ∧
  (∀ g : ℤ, (KameMix_setGroup st c g).1 = st) ∧
  (∀ v : ℚ, (KameMix_setVolume st c v).1 = st) ∧
  KameMix_isPlaying st c = 0 ∧
  KameMix_isPaused st c = 0 ∧
  KameMix_isFinished st c = 1 ∧
  KameMix_getVolume st c = 1 ∧
  KameMix_getGroup st c = -1 ∧
  KameMix_getPos st c = (0, 0) ∧
  KameMix_getLoopCount st c = 0 ∧
  KameMix_getMaxDistance st c = 0

/-- C8: every channel operation applied to an unset channel
(`idx = -1`, guarded by `KameMix_isChannelSet`) or to a handle whose id
no longer matches its slot is a no-op on the mixer state, and the query
forms return their documented defaults (`is_playing` 0, `is_paused` 0,
`is_finished` 1, `get_volume` 1.0, `get_group` −1, `get_pos` (0,0),
`get_loop_count` 0, `get_max_distance` 0) — except play, which always
creates a new voice (`number_playing` grows by one and a fresh id is
handed out). -/
theorem C8_invalid_handle_is_noop :
    ∀ (st : MixState) (c : KameMix_Channel),
      (KameMix_isChannelSet c = false → channelOpsNoop st c) ∧
      (KameMix_isChannelSet c = true → (getSound st c.idx).id ≠ c.id →
        channelOpsNoop st c) ∧
      (∀ (blockSize size : ℤ) (start_sec : ℚ) (loops : ℤ)
        (vol fade x y maxd : ℚ) (grp : ℤ) (paused : Bool),
        (KameMix_playSound st blockSize size c start_sec loops vol fade x y maxd
          grp paused).1.number_playing = st.number_playing + 1 ∧
        (KameMix_playSound st blockSize size c start_sec loops vol fade x y maxd
          grp paused).2.id = st.next_id) := by
  intro st c
  refine ⟨?_, ?_, ?_⟩
  · intro hset
    exact ⟨fun fade => by simp [KameMix_fadeout, hset],
      by simp [KameMix_halt, hset],
      by simp [KameMix_stop, KameMix_fadeout, hset],
      by simp [KameMix_pause, hset],
      by simp [KameMix_unpause, hset],
      fun loops => by simp [KameMix_setLoopCount, hset],
      fun x y => by simp [KameMix_setPos, hset],
      fun d => by simp [KameMix_setMaxDistance, hset],
      fun g => by simp [KameMix_setGroup, hset],
      fun v => by simp [KameMix_setVolume, hset],
      by simp [KameMix_isPlaying, hset],
      by simp [KameMix_isPaused, hset],
      by simp [KameMix_isFinished, hset],
      by simp [KameMix_getVolume, hset],
      by simp [KameMix_getGroup, hset],
      by simp [KameMix_getPos, hset],
      by simp [KameMix_getLoopCount, hset],
      by simp [KameMix_getMaxDistance, hset]⟩
  · intro hset hid
    have hid2 : c.id ≠ (getSound st c.idx).id := Ne.symm hid
    exact ⟨fun fade => by simp [KameMix_fadeout, fadeoutChannel_locked, hset, hid],
      by simp [KameMix_halt, haltChannel_locked, hset, hid],
      by simp [KameMix_stop, KameMix_fadeout, fadeoutChannel_locked, hset, hid],
      by simp [KameMix_pause, hset, hid2],
      by simp [KameMix_unpause, hset, hid2],
      fun loops => by simp [KameMix_setLoopCount, hset, hid],
      fun x y => by simp [KameMix_setPos, hset, hid],
      fun d => by simp [KameMix_setMaxDistance, hset, hid],
      fun g => by simp [KameMix_setGroup, hset, hid],
      fun v => by simp [KameMix_setVolume, hset, hid],
      by simp [KameMix_isPlaying, hset, hid],
      by simp [KameMix_isPaused, hset, hid],
      by simp [KameMix_isFinished, hset, hid],
      by simp [KameMix_getVolume, hset, hid],
      by simp [KameMix_getGroup, hset, hid],
      by simp [KameMix_getPos, hset, hid],
      by simp [KameMix_getLoopCount, hset, hid],
      by simp [KameMix_getMaxDistance, hset, hid]⟩
  · intro blockSize size start_sec loops vol fade x y maxd grp paused
    constructor
    · simp only [KameMix_playSound]
      cases hset : KameMix_isChannelSet c <;>
        simp [hset, setSound, findFreeChannel_number_playing,
          fadeoutChannel_number_playing]
    · simp only [KameMix_playSound]
      cases hset : KameMix_isChannelSet c <;>
        simp [hset, setSound, findFreeChannel_next_id, fadeoutChannel_next_id]

/-- C8 witness: the unset handle and a stale handle (slot 0 holds id 7,
the handle carries id 99) are no-ops on the example state; play on the
unset handle creates a voice. -/
theorem C8_witness :
    channelOpsNoop exampleState nullChannel ∧
    channelOpsNoop exampleState { idx := 0, id := 99 } ∧
    (KameMix_playSound exampleState 8 16 nullChannel 0 0 1 0 0 0 0 (-1)
      false).1.number_playing = exampleState.number_playing + 1 := by
  refine ⟨(C8_invalid_handle_is_noop exampleState nullChannel).1 (by decide),
    (C8_invalid_handle_is_noop exampleState { idx := 0, id := 99 }).2.1
      (by decide) (by decide),
    ((C8_invalid_handle_is_noop exampleState nullChannel).2.2 8 16 0 0 1 0 0 0 0
      (-1) false).1⟩

theorem getSound_lt_of_state_ne (st : MixState) (i : ℤ)
    (h : (getSound st i).state ≠ FinishedState) : i.toNat < st.sounds.length := by
  by_contra hge
  rw [getSound, List.getD_eq_default] at h
  · exact h rfl
  · omega

theorem pause_eq_self_of_not_transitional (st : MixState) (c : KameMix_Channel)
    (h1 : (getSound st c.idx).state ≠ PlayingState)
    (h2 : (getSound st c.idx).state ≠ UnpausingState) :
    KameMix_pause st c = st := by
  rw [KameMix_pause]
  by_cases hs : KameMix_isChannelSet c = true
  · rw [if_pos hs]
    by_cases hi : c.id = (getSound st c.idx).id
    · simp only [hi, if_pos, if_neg h1, if_neg h2]
    · simp only [hi, if_neg, if_false]
  · rw [if_neg hs]

theorem unpause_eq_self_of_not_transitional (st : MixState) (c : KameMix_Channel)
    (h1 : (getSound st c.idx).state ≠ PausedState)
    (h2 : (getSound st c.idx).state ≠ PausingState) :
    KameMix_unpause st c = st := by
  rw [KameMix_unpause]
  by_cases hs : KameMix_isChannelSet c = true
  · rw [if_pos hs]
    by_cases hi : c.id = (getSound st c.idx).id
    · simp only [hi, if_pos, if_neg h1, if_neg h2]
    · simp only [hi, if_neg, if_false]
  · rw [if_neg hs]

/-- C9 counterexample: pausing the playing example voice twice leaves
its state `PausingState` (the second `KameMix_pause` is a no-op because
a Pausing voice is neither playing nor unpausing, KameMix.cpp 497-510),
not `PausedState` as the claim asserts; the ramp-down to `PausedState`
happens later, in the callback's `getVolumeData`. -/
theorem C9_counterexample :
    (getSound (KameMix_pause (KameMix_pause exampleState exampleChannel)
        exampleChannel) exampleChannel.idx).state = PausingState ∧
    PausingState ≠ PausedState := by
  decide

/-- C9 (amended): `halt` is idempotent (the second halt is a no-op:
after the first, the slot's tag is `InvalidType`); `pause` is
idempotent — calling it twice on a playing voice leaves the voice in
`PausingState` (which `is_paused` already reports as paused), with
`PausedState` reached only on the next callback; and `unpause` on a
playing voice is a no-op. -/
theorem C9_idempotence_amended :
    ∀ (st : MixState) (c : KameMix_Channel),
      KameMix_halt (KameMix_halt st c) c = KameMix_halt st c ∧
      KameMix_pause (KameMix_pause st c) c = KameMix_pause st c ∧
      (KameMix_isChannelSet c = true → c.id = (getSound st c.idx).id →
        (getSound st c.idx).state = PlayingState →
        (getSound (KameMix_pause (KameMix_pause st c) c) c.idx).state =
          PausingState ∧
        KameMix_isPaused (KameMix_pause (KameMix_pause st c) c) c = 1) ∧
      ((getSound st c.idx).state = PlayingState → KameMix_unpause st c = st) := by
  intro st c
  have hhalt : KameMix_halt (KameMix_halt st c) c = KameMix_halt st c := by
    cases hset : KameMix_isChannelSet c
    · have h : ∀ s : MixState, KameMix_halt s c = s := fun s => by
        simp [KameMix_halt, hset]
      rw [h, h]
    · by_cases hguard : (getSound st c.idx).id = c.id ∧
          (getSound st c.idx).tag ≠ InvalidType
      · have h1 : KameMix_halt st c = freeChannel_locked st c.idx := by
          rw [KameMix_halt, if_pos hset, haltChannel_locked, if_pos hguard]
        have htag : (getSound (freeChannel_locked st c.idx) c.idx).tag =
            InvalidType := by
          rw [freeChannel_locked]
          by_cases hlt : c.idx.toNat < st.sounds.length
          · rw [getSound_setSound_self _ _ _ (by simpa using hlt)]
            rfl
          · rw [getSound, List.getD_eq_default]
            · rfl
            · simp [setSound]
              omega
        rw [h1, KameMix_halt, if_pos hset, haltChannel_locked,
          if_neg (fun hg => hg.2 htag)]
      · have h1 : KameMix_halt st c = st := by
          rw [KameMix_halt, if_pos hset, haltChannel_locked, if_neg hguard]
        rw [h1]
        exact h1
  have hpause : KameMix_pause (KameMix_pause st c) c = KameMix_pause st c := by
    cases hset : KameMix_isChannelSet c
    · have h : ∀ s : MixState, KameMix_pause s c = s := fun s => by
        simp [KameMix_pause, hset]
      rw [h, h]
    · by_cases hid : c.id = (getSound st c.idx).id
      · by_cases hp : (getSound st c.idx).state = PlayingState
        · have hlt := getSound_lt_of_state_ne st c.idx (by rw [hp]; simp)
          have h1 : KameMix_pause st c =
              setSound st c.idx { getSound st c.idx with state := PausingState } := by
            rw [KameMix_pause, if_pos hset]
            simp only [hid, if_pos, hp, if_true]
          have h2 : getSound (KameMix_pause st c) c.idx =
              { getSound st c.idx with state := PausingState } := by
            rw [h1]
            exact getSound_setSound_self _ _ _ hlt
          exact pause_eq_self_of_not_transitional _ _
            (by rw [h2]; simp) (by rw [h2]; simp)
        · by_cases hu : (getSound st c.idx).state = UnpausingState
          · have hlt := getSound_lt_of_state_ne st c.idx (by rw [hu]; simp)
            have h1 : KameMix_pause st c =
                setSound st c.idx { getSound st c.idx with state := PausedState } := by
              rw [KameMix_pause, if_pos hset]
              simp [hid, hp, hu]
            have h2 : getSound (KameMix_pause st c) c.idx =
                { getSound st c.idx with state := PausedState } := by
              rw [h1]
              exact getSound_setSound_self _ _ _ hlt
            exact pause_eq_self_of_not_transitional _ _
              (by rw [h2]; simp) (by rw [h2]; simp)
          · have h1 : KameMix_pause st c = st :=
              pause_eq_self_of_not_transitional _ _ hp hu
            rw [h1]
            exact h1
      · have h1 : KameMix_pause st c = st := by
          rw [KameMix_pause, if_pos hset, if_neg hid]
        rw [h1]
        exact h1
  refine ⟨hhalt, hpause, ?_, ?_⟩
  · intro hset hid hp
    have hlt := getSound_lt_of_state_ne st c.idx (by rw [hp]; simp)
    have h1 : KameMix_pause st c =
        setSound st c.idx { getSound st c.idx with state := PausingState } := by
      rw [KameMix_pause, if_pos hset]
      simp only [hid, if_pos, hp, if_true]
    have h2 : getSound (KameMix_pause st c) c.idx =
        { getSound st c.idx with state := PausingState } := by
      rw [h1]
      exact getSound_setSound_self _ _ _ hlt
    constructor
    · rw [hpause, h2]
    · rw [hpause, KameMix_isPaused, if_pos hset]
      have hidp : ({ getSound st c.idx with state := PausingState } :
          PlayingSound).id = c.id := by
        simpa using hid.symm
      simp only [h2, hidp, if_pos, true_and]
      simp
  · intro hp
    exact unpause_eq_self_of_not_transitional st c
      (by rw [hp]; simp) (by rw [hp]; simp)

/-- C9 witness: halt idempotence, pause idempotence and the
playing-voice conjuncts on the example state. -/
theorem C9_witness :
    KameMix_halt (KameMix_halt exampleState exampleChannel) exampleChannel =
      KameMix_halt exampleState exampleChannel ∧
    KameMix_pause (KameMix_pause exampleState exampleChannel) exampleChannel =
      KameMix_pause exampleState exampleChannel ∧
    KameMix_isPaused (KameMix_pause (KameMix_pause exampleState exampleChannel)
      exampleChannel) exampleChannel = 1 ∧
    KameMix_unpause exampleState exampleChannel = exampleState := by
  have h := C9_idempotence_amended exampleState exampleChannel
  exact ⟨h.1, h.2.1, (h.2.2.1 (by decide) (by decide) (by decide)).2,
    h.2.2.2 (by decide)⟩

/-- C4 counterexample: the callback loop of the source
(`for (int i = 0; i < (int)kame_mix.sounds->size(); ++i)`,
KameMix.cpp 1405) re-reads the voice count each iteration.  Starting
with one voice and appending one voice while iteration 0 runs, the loop
processes indices 0 AND 1; the snapshot iteration the spec describes
would process index 0 only.  The added voice is therefore not skipped
by the running callback. -/
theorem C4_counterexample :
    audioCallbackLoop 0 1 [1] = [0, 1] ∧
    audioCallbackLoopSnapshot 1 = [0] ∧
    1 ∈ audioCallbackLoop 0 1 [1] ∧
    1 ∉ audioCallbackLoopSnapshot 1 := by
  decide

/-- C4 (amended): the callback does not snapshot the voice count; its
loop re-evaluates `sounds->size()` every iteration, so it processes a
contiguous prefix `0 ... S - 1` of the voice array for some `S` at
least the count at callback start — in particular a voice appended
while the loop is still running is processed by that same callback
rather than deferred to the next one. -/
theorem C4_callback_processes_added_voices :
    ∀ (adds : List ℕ) (i size : ℕ), i ≤ size →
      ∃ S, size ≤ S ∧ audioCallbackLoop i size adds = List.range' i (S - i) := by
  intro adds
  induction adds with
  | nil =>
    intro i size h
    exact ⟨size, le_refl _, rfl⟩
  | cons a rest ih =>
    intro i size h
    rw [audioCallbackLoop]
    by_cases hlt : i < size
    · rw [if_pos hlt]
      obtain ⟨S, hS, heq⟩ := ih (i + 1) (size + a) (by omega)
      refine ⟨S, by omega, ?_⟩
      rw [heq]
      have hSi : S - i = (S - (i + 1)) + 1 := by omega
      rw [hSi, List.range'_succ]
    · rw [if_neg hlt]
      refine ⟨size, le_refl _, ?_⟩
      have h0 : size - i = 0 := by omega
      rw [h0]
      rfl

/-- C4 witness: the amended statement at the counterexample's input. -/
theorem C4_witness :
    (0 : ℕ) ≤ 1 ∧
    ∃ S, 1 ≤ S ∧ audioCallbackLoop 0 1 [1] = List.range' 0 (S - 0) :=
  ⟨by decide, C4_callback_processes_added_voices [1] 0 1 (by decide)⟩

theorem PlayingSound.create_buffer_pos (cb : ℚ) (tag : PlayingType)
    (loops bp : ℤ) (paused : Bool) (fade vol x y maxd : ℚ) (grp : ℤ) (id : ℕ) :
    (PlayingSound.create cb tag loops bp paused fade vol x y maxd grp id).buffer_pos = bp := by
  rw [PlayingSound.create]
  simp only [PlayingSound.unsetFade, PlayingSound.setFadein]
  split_ifs <;> rfl

theorem mem_of_getLast?_eq {l : List ℕ} {a : ℕ} (h : l.getLast? = some a) : a ∈ l := by
  have hm : a ∈ l.getLast? := by simp [h, Option.mem_def]
  obtain ⟨hne, rfl⟩ := List.mem_getLast?_eq_getLast hm
  exact List.getLast_mem hne

theorem findFreeChannel_cases (st : MixState) :
    ((findFreeChannel_locked st).2 ∈ st.free_list ∧
      (findFreeChannel_locked st).1.sounds = st.sounds) ∨
    ((findFreeChannel_locked st).2 = st.sounds.length ∧
      (findFreeChannel_locked st).1.sounds = st.sounds ++ [defaultSound]) := by
  rw [findFreeChannel_locked]
  cases hlast : ({ st with number_playing := st.number_playing + 1 } :
      MixState).free_list.getLast? with
  | none => right; simp
  | some idx =>
    left
    refine ⟨mem_of_getLast?_eq (l := st.free_list) (by simpa using hlast), rfl⟩

theorem findFreeChannel_idx_lt (st : MixState)
    (hfree : ∀ j ∈ st.free_list, j < st.sounds.length) :
    (findFreeChannel_locked st).2 < (findFreeChannel_locked st).1.sounds.length := by
  rcases findFreeChannel_cases st with ⟨hm, hs⟩ | ⟨he, hs⟩
  · rw [hs]
    exact hfree _ hm
  · rw [he, hs]
    simp

theorem playSound_new_voice (st : MixState) (blockSize size : ℤ)
    (c : KameMix_Channel) (start_sec : ℚ) (loops : ℤ)
    (vol fade x y maxd : ℚ) (grp : ℤ) (paused : Bool)
    (hfree : ∀ j ∈ st.free_list, j < st.sounds.length) :
    getSound (KameMix_playSound st blockSize size c start_sec loops vol fade x y
        maxd grp paused).1
      (KameMix_playSound st blockSize size c start_sec loops vol fade x y maxd grp
        paused).2.idx =
      PlayingSound.create st.secs_per_callback SoundType loops
        (soundTimeToBytePos st.frequency blockSize size start_sec) paused fade vol
        x y maxd grp st.next_id := by
  simp only [KameMix_playSound]
  set st1 := if KameMix_isChannelSet c = true then fadeoutChannel_locked st c (-1)
    else st with hst1
  have hfl : st1.free_list = st.free_list := by
    rw [hst1]
    cases h : KameMix_isChannelSet c <;> simp [h, fadeoutChannel_free_list]
  have hsl : st1.sounds.length = st.sounds.length := by
    rw [hst1]
    cases h : KameMix_isChannelSet c <;> simp [h, fadeoutChannel_sounds_length]
  have hfq : st1.frequency = st.frequency := by
    rw [hst1]
    cases h : KameMix_isChannelSet c <;> simp [h, fadeoutChannel_frequency]
  have hsec : st1.secs_per_callback = st.secs_per_callback := by
    rw [hst1]
    cases h : KameMix_isChannelSet c <;> simp [h, fadeoutChannel_secs]
  have hnid : st1.next_id = st.next_id := by
    rw [hst1]
    cases h : KameMix_isChannelSet c <;> simp [h, fadeoutChannel_next_id]
  have hfree1 : ∀ j ∈ st1.free_list, j < st1.sounds.length := by
    rw [hfl, hsl]
    exact hfree
  have hidx := findFreeChannel_idx_lt st1 hfree1
  rw [getSound_setSound_self]
  · rw [findFreeChannel_secs, findFreeChannel_frequency, findFreeChannel_next_id,
      hfq, hsec, hnid]
  · simpa [setSound, findFreeChannel_idx_lt] using hidx

/-- C6: `soundTimeToBytePos` (KameMix.cpp 691-704) converts `start_sec`
to a byte offset and forces it into `[0, size)`: any offset that is
negative or at least `buffer.size()` becomes 0, so for every
`start_sec` and every loaded sound (nonempty buffer) the offset — and
hence the `buffer_pos` the new voice of `KameMix_playSound` starts
with (KameMix.cpp 719-723) — lies in `[0, size)`.  The free-list
hypothesis is the registry invariant that free slots are valid
indices. -/
theorem C6_start_pos_clamped :
    ∀ (freq blockSize size : ℤ) (secs : ℚ), 0 < size →
      (0 ≤ soundTimeToBytePos freq blockSize size secs ∧
        soundTimeToBytePos freq blockSize size secs < size) ∧
      (∀ (st : MixState) (c : KameMix_Channel) (loops : ℤ)
          (vol fade x y maxd : ℚ) (grp : ℤ) (paused : Bool),
        (∀ j ∈ st.free_list, j < st.sounds.length) →
        st.frequency = freq →
        (getSound (KameMix_playSound st blockSize size c secs loops vol fade x y
            maxd grp paused).1
          (KameMix_playSound st blockSize size c secs loops vol fade x y maxd grp
            paused).2.idx).buffer_pos =
          soundTimeToBytePos freq blockSize size secs) := by
  intro freq blockSize size secs hsize
  constructor
  · simp only [soundTimeToBytePos]
    split_ifs with h1 h2
    · exact ⟨le_refl 0, hsize⟩
    · exact ⟨le_refl 0, hsize⟩
    · push_neg at h2
      exact ⟨not_lt.mp (fun hlt => absurd hlt (not_lt.mpr h2.1)), h2.2⟩
  · intro st c loops vol fade x y maxd grp paused hfree hfreq
    rw [playSound_new_voice st blockSize size c secs loops vol fade x y maxd grp
      paused hfree, PlayingSound.create_buffer_pos, hfreq]

/-- C6 witness: a 2-second start offset into a 16-byte sound is out of
range and clamps to byte 0; playing the sound from the example state
gives the new voice exactly that clamped `buffer_pos`. -/
theorem C6_witness :
    (0 : ℤ) < 16 ∧
    (0 ≤ soundTimeToBytePos 44100 8 16 2 ∧ soundTimeToBytePos 44100 8 16 2 < 16) ∧
    (getSound (KameMix_playSound exampleState 8 16 nullChannel 2 0 1 0 0 0 0 (-1)
        false).1
      (KameMix_playSound exampleState 8 16 nullChannel 2 0 1 0 0 0 0 (-1)
        false).2.idx).buffer_pos = soundTimeToBytePos 44100 8 16 2 := by
  have h := C6_start_pos_clamped 44100 8 16 2 (by norm_num)
  exact ⟨by norm_num, h.1, h.2 exampleState nullChannel 0 1 0 0 0 0 (-1) false
    (by simp [exampleState]) (by decide)⟩

theorem applyVolume2_length (lv rv : ℚ) :
    ∀ s : List ℚ, (applyVolume2 lv rv s).length = s.length
  | [] => rfl
  | [_] => rfl
  | _ :: _ :: rest => by
    simp only [applyVolume2, List.length_cons]
    rw [applyVolume2_length lv rv rest]

theorem applyVolume2_getD (lv rv : ℚ) :
    ∀ (s : List ℚ) (j : ℕ), j < s.length →
      (applyVolume2 lv rv s).getD j 0 =
        s.getD j 0 * (if j % 2 = 0 then lv else rv)
  | [], j, h => absurd h (by simp)
  | [a], j, h => by
    match j with
    | 0 => simp [applyVolume2]
    | j + 1 => simp at h
  | a :: b :: rest, j, h => by
    match j with
    | 0 => simp [applyVolume2]
    | 1 => simp [applyVolume2]
    | j + 2 =>
      have ih := applyVolume2_getD lv rv rest j (by
        simp only [List.length_cons] at h
        omega)
      simp only [applyVolume2, List.getD_cons_succ]
      rw [ih, Nat.add_mod_right]

theorem applySpans_length (vd : VolumeData) (len : ℕ) :
    ∀ (k i : ℕ) (s : List ℚ), (applySpans vd len k i s).length = s.length
  | 0, i, s => applyVolume2_length _ _ s
  | k + 1, i, s => by
    simp only [applySpans, List.length_append, applyVolume2_length,
      applySpans_length vd len k (i + 1) (s.drop len)]
    simp [List.length_take, List.length_drop]
    omega

theorem applySpans_getD (vd : VolumeData) (len : ℕ) (hlen : len % 2 = 0) :
    ∀ (k i : ℕ) (s : List ℚ) (j : ℕ), j < s.length →
      (applySpans vd len k i s).getD j 0 =
        s.getD j 0 *
          (if j % 2 = 0 then
            vd.left_volume * (vd.lfade + ((i + spanStepCount len k j : ℕ) : ℚ) * vd.lmod)
          else
            vd.right_volume * (vd.rfade + ((i + spanStepCount len k j : ℕ) : ℚ) * vd.rmod))
  | 0, i, s, j, hj => by
    rw [applySpans, applyVolume2_getD _ _ s j hj]
    have h0 : spanStepCount len 0 j = 0 := by
      rw [spanStepCount]
      split_ifs <;> simp
    rw [h0]
    split_ifs <;> simp
  | k + 1, i, s, j, hj => by
    rw [applySpans]
    by_cases hjl : j < (applyVolume2 (vd.left_volume * (vd.lfade + (i : ℚ) * vd.lmod))
        (vd.right_volume * (vd.rfade + (i : ℚ) * vd.rmod)) (s.take len)).length
    · rw [List.getD_append _ _ _ _ hjl]
      rw [applyVolume2_length, List.length_take] at hjl
      rw [applyVolume2_getD _ _ _ j (by rw [List.length_take]; exact hjl)]
      have htake : (s.take len).getD j 0 = s.getD j 0 := by
        rw [List.getD_eq_getElem _ _ (by rw [List.length_take]; exact hjl),
          List.getD_eq_getElem _ _ hj, List.getElem_take]
      have hj0 : j < len := lt_of_lt_of_le hjl (min_le_left _ _)
      have hlen0 : len ≠ 0 := by omega
      have hstep : spanStepCount len (k + 1) j = 0 := by
        rw [spanStepCount, if_neg hlen0, Nat.div_eq_of_lt hj0]
        simp
      rw [htake, hstep]
      norm_num
    · rw [List.getD_append_right _ _ _ _ (le_of_not_lt hjl)]
      rw [applyVolume2_length, List.length_take] at hjl ⊢
      have hmin : min len s.length = len := by
        rcases Nat.le_total len s.length with hle | hle
        · exact min_eq_left hle
        · rw [min_eq_right hle]
          omega
      rw [hmin] at hjl ⊢
      have hlj : len ≤ j := le_of_not_lt hjl
      have hdrop : j - len < (s.drop len).length := by
        rw [List.length_drop]
        omega
      rw [applySpans_getD vd len hlen k (i + 1) (s.drop len) (j - len) hdrop]
      have hdget : (s.drop len).getD (j - len) 0 = s.getD j 0 := by
        rw [List.getD_eq_getElem _ _ hdrop, List.getD_eq_getElem _ _ hj,
          List.getElem_drop]
        congr 1
        omega
      have hpar : (j - len) % 2 = j % 2 := by omega
      have hstep : i + 1 + spanStepCount len k (j - len) =
          i + spanStepCount len (k + 1) j := by
        rw [spanStepCount, spanStepCount]
        by_cases hlen0 : len = 0
        · rw [if_pos hlen0, if_pos hlen0]
          omega
        · rw [if_neg hlen0, if_neg hlen0]
          have hpos : 0 < len := Nat.pos_of_ne_zero hlen0
          have hdiv : j / len = (j - len) / len + 1 := Nat.div_eq_sub_div hpos hlj
          rw [hdiv]
          omega
      rw [hdget, hpar, hstep]

/-- C1 helper: a playing voice whose previous left volume (10) is far
above its new target volume (1) while the right channel is already at
the target.  `max(lfade_delta, rfade_delta)` in the source
(KameMix.cpp 1060) is the SIGNED maximum, which here is
`rfade_delta = 0`, so `mod_times = 0` even though the left channel
jumps by −0.9 in a single step. -/
def volumeJumpVoice : PlayingSound :=
  { defaultSound with
    id := 3
    tag := SoundType
    state := PlayingState
    new_volume := 1
    lvolume := 10
    rvolume := 1 }

/-- C1 counterexample: for the voice above (no fade, no pause change,
relative position (0,0) so `applyPosition` contributes `{1, 1}`),
`getVolumeData` returns `n_steps = mod_times = 0 < 50` yet the left
channel's per-sub-span fade increment is `lmod = -9/10`, whose
magnitude far exceeds 0.02 — the claimed 2 percent bound fails below
the cap. -/
theorem C1_counterexample :
    (PlayingSound.getVolumeData 1 1 [] ⟨1, 1⟩ volumeJumpVoice).1.mod_times < 50 ∧
    (PlayingSound.getVolumeData 1 1 [] ⟨1, 1⟩ volumeJumpVoice).1.lmod = -(9 / 10) ∧
    ¬(|(PlayingSound.getVolumeData 1 1 [] ⟨1, 1⟩ volumeJumpVoice).1.lmod| ≤ 2 / 100) := by
  simp [PlayingSound.getVolumeData, PlayingSound.volumeInGroup, computeVolumeMods,
    volumeJumpVoice, defaultSound]
  norm_num
  rw [abs_of_pos (by norm_num : (0:ℚ) < 9 / 10)]
  norm_num

theorem computeVolumeMods_le (a b : ℚ) : (computeVolumeMods a b).1 ≤ 50 := by
  rw [computeVolumeMods]
  dsimp only
  split_ifs with h
  · exact le_refl 50
  · omega

set_option maxHeartbeats 1000000 in
theorem getVolumeData_mod_times_le (cb master : ℚ) (groups : List ℚ)
    (vfade : VolumeFade) (s : PlayingSound) :
    (PlayingSound.getVolumeData cb master groups vfade s).1.mod_times ≤ 50 := by
  rw [PlayingSound.getVolumeData]
  split
  · dsimp only
    exact computeVolumeMods_le _ _
  · exact Nat.zero_le 50

theorem computeVolumeMods_step_bound (a b c : ℚ)
    (hlt : (computeVolumeMods a b).1 < 50) (hab : |c| ≤ |max a b|) :
    |c / (((computeVolumeMods a b).1 : ℚ) + 1)| ≤ 2 / 100 := by
  rw [computeVolumeMods] at hlt ⊢
  dsimp only at hlt ⊢
  by_cases hcap : (Int.floor |max a b / (2 / 100)|).toNat > 50
  · rw [if_pos hcap] at hlt
    omega
  · rw [if_neg hcap] at hlt ⊢
    have hd : (0 : ℚ) < 2 / 100 := by norm_num
    have hX0 : (0 : ℚ) ≤ |max a b / (2 / 100)| := abs_nonneg _
    have hfl0 : 0 ≤ Int.floor |max a b / (2 / 100)| := Int.floor_nonneg.mpr hX0
    set m : ℕ := (Int.floor |max a b / (2 / 100)|).toNat with hm
    have hcast : ((m : ℕ) : ℚ) = ((Int.floor |max a b / (2 / 100)| : ℤ) : ℚ) := by
      rw [hm]
      exact_mod_cast congrArg (fun z : ℤ => (z : ℚ)) (Int.toNat_of_nonneg hfl0)
    have h1 : |max a b / (2 / 100)| < (m : ℚ) + 1 := by
      rw [hcast]
      exact Int.lt_floor_add_one _
    have hXeq : |max a b| = |max a b / (2 / 100)| * (2 / 100) := by
      rw [abs_div, abs_of_pos hd]
      field_simp
    have hmax : |max a b| < ((m : ℚ) + 1) * (2 / 100) := by
      rw [hXeq]
      exact mul_lt_mul_of_pos_right h1 hd
    have hapos : |c| < ((m : ℚ) + 1) * (2 / 100) := lt_of_le_of_lt hab hmax
    rw [abs_div]
    have hden : |((m : ℚ) + 1)| = (m : ℚ) + 1 := abs_of_pos (by positivity)
    rw [hden, div_le_iff₀ (by positivity : (0 : ℚ) < (m : ℚ) + 1)]
    linarith

/-- C1 (amended): `applyVolume` (KameMix.cpp 1168-1192) partitions an
`n`-sample block into `mod_times + 1` sub-spans — the first `mod_times`
of equal length `(n / 2) / (mod_times + 1) * 2`, the last absorbing the
remainder — and scales every sample exactly once, with the gain of the
sub-span it falls in (`gainAt`); `getVolumeData` always produces
`mod_times ≤ 50`; and whenever `mod_times` is below the cap, a
channel's per-sub-span fade increment has magnitude at most 0.02
PROVIDED that channel's fade delta has magnitude at most the magnitude
of the SIGNED maximum `max(lfade_delta, rfade_delta)` used by the
source — in particular whenever the two deltas are equal (pure fades,
uniform volume changes).  Without that proviso the bound fails
(`C1_counterexample`): the source takes the signed maximum, not the
maximum magnitude.  The divisibility hypothesis records that a block is
a whole number of interleaved stereo frames (an odd sample count would
read past the block in C). -/
theorem C1_volume_ramp_amended :
    (∀ (vd : VolumeData) (s : List ℚ), 2 ∣ s.length →
      (applyVolumeData vd s).length = s.length ∧
      ∀ j : ℕ, j < s.length →
        (applyVolumeData vd s).getD j 0 = s.getD j 0 * gainAt vd s.length j) ∧
    (∀ (cb master : ℚ) (groups : List ℚ) (vfade : VolumeFade) (s : PlayingSound),
      (PlayingSound.getVolumeData cb master groups vfade s).1.mod_times ≤ 50) ∧
    (∀ lfade_delta rfade_delta : ℚ,
      (computeVolumeMods lfade_delta rfade_delta).1 < 50 →
      |lfade_delta| ≤ |max lfade_delta rfade_delta| →
      |(computeVolumeMods lfade_delta rfade_delta).2.1| ≤ 2 / 100) ∧
    (∀ lfade_delta rfade_delta : ℚ,
      (computeVolumeMods lfade_delta rfade_delta).1 < 50 →
      |rfade_delta| ≤ |max lfade_delta rfade_delta| →
      |(computeVolumeMods lfade_delta rfade_delta).2.2| ≤ 2 / 100) := by
  refine ⟨?_, fun cb master groups vfade s =>
    getVolumeData_mod_times_le cb master groups vfade s, ?_, ?_⟩
  · intro vd s _
    have hlen : (s.length / 2 / (vd.mod_times + 1) * 2) % 2 = 0 :=
      Nat.mul_mod_left _ 2
    constructor
    · rw [applyVolumeData]
      exact applySpans_length vd _ vd.mod_times 0 s
    · intro j hj
      rw [applyVolumeData, applySpans_getD vd _ hlen vd.mod_times 0 s j hj,
        gainAt, spanIndexOf, subSpanLen]
      norm_num
  · intro a b hlt hab
    exact computeVolumeMods_step_bound a b a hlt hab
  · intro a b hlt hab
    exact computeVolumeMods_step_bound a b b hlt hab

/-- C1 witness: concrete instances — the per-sample gain identity on a
two-sample block, the cap for the example voice, and the 2 percent
bound at equal fade deltas. -/
theorem C1_witness :
    ((2 ∣ ([1, 2] : List ℚ).length) ∧
      (applyVolumeData ⟨2, 3, 1, 1, 0, 0, 0⟩ [1, 2]).getD 1 0 =
        ([1, 2] : List ℚ).getD 1 0 * gainAt ⟨2, 3, 1, 1, 0, 0, 0⟩ 2 1) ∧
    (PlayingSound.getVolumeData 1 1 [] ⟨1, 1⟩ examplePlayingVoice).1.mod_times ≤ 50 ∧
    ((computeVolumeMods (1 / 100) (1 / 100)).1 < 50 ∧
      |(computeVolumeMods (1 / 100) (1 / 100)).2.1| ≤ 2 / 100) := by
  have hlt : (computeVolumeMods (1 / 100) (1 / 100)).1 < 50 := by
    have h0 : |(1 : ℚ) / 2| = 1 / 2 := by
      rw [abs_of_pos] <;> norm_num
    norm_num [computeVolumeMods, h0]
  have hab : |(1 : ℚ) / 100| ≤ |max ((1 : ℚ) / 100) ((1 : ℚ) / 100)| := by
    norm_num
  exact ⟨⟨by decide,
      (C1_volume_ramp_amended.1 ⟨2, 3, 1, 1, 0, 0, 0⟩ [1, 2] (by decide)).2 1
        (by decide)⟩,
    C1_volume_ramp_amended.2.1 1 1 [] ⟨1, 1⟩ examplePlayingVoice,
    hlt, C1_volume_ramp_amended.2.2.1 (1 / 100) (1 / 100) hlt hab⟩
